import Mathlib

/-!
Verification of the Drone_pi control-to-wire pipeline.

The Python sources are shallowly embedded:
* `controller.py` (`DroneController`): stick normalization, low-pass
  filtering, the arm/disarm button state machine and the signal handler.
* `controller_handler.py` (`ControllerHandler._normalize`): the second
  normalizer (trigger-based throttle, stick axes, d-pad).
* `msp_sender.py` (`MSPSender`): `update_values`, `close`, `_create_packet`
  and the `_start_serial` / write-failure reconnect logic.
* `verify_crsf.py`: `crc8_crsf` and `create_crsf_frame` (16 x 11-bit
  channel packing).

Python floats are modelled as exact rationals, byte strings as `List ℕ`,
and Python's `int()` truncation as truncation toward zero on `ℚ`.
-/

set_option maxRecDepth 40000

namespace DronePi

/-! ## controller.py : DroneController constants and normalization -/

/-- `DroneController.CENTER` -/
def CENTER : ℚ := 128

/-- `DroneController.MAX_RANGE` -/
def MAX_RANGE : ℚ := 127

/-- `DroneController.DEADZONE` -/
def DEADZONE : ℚ := 5

/-- `DroneController.ALPHA`, the low-pass filter strength -/
def ALPHA : ℚ := 1 / 4

/-- `DroneController._normalize(value, invert)`: deadzone around `CENTER`,
then clamp `delta / MAX_RANGE` to `[-1, 1]`, negated when `invert`. -/
def controllerNormalize (value : ℚ) (invert : Bool) : ℚ :=
  let delta := value - CENTER
  if |delta| < DEADZONE then 0
  else
    let n := max (-1) (min 1 (delta / MAX_RANGE))
    if invert then -n else n

/-- `DroneController._apply_lpf(new, old)`: first-order low-pass filter. -/
def applyLpf (new old : ℚ) : ℚ := ALPHA * new + (1 - ALPHA) * old

/-- The four control axes held in `DroneController.raw` / `.filtered`. -/
structure Axes where
  roll : ℚ
  pitch : ℚ
  yaw : ℚ
  throttle : ℚ
deriving DecidableEq

/-- All-zero axis record, the value written by `_reset_inputs`. -/
def zeroAxes : Axes := ⟨0, 0, 0, 0⟩

/-- The `DroneController` state touched by `_process_event`:
`armed`, `raw` and `filtered`. -/
structure CtrlState where
  armed : Bool
  raw : Axes
  filtered : Axes
deriving DecidableEq

/-- The evdev events `_process_event` dispatches on: the four button press
events and the four absolute stick axes with their raw value. -/
inductive Ev
  | btnSouth
  | btnNorth
  | btnEast
  | btnStart
  | absX (value : ℚ)
  | absY (value : ℚ)
  | absRX (value : ℚ)
  | absRY (value : ℚ)
deriving DecidableEq

/-- Result of one `_process_event` call: the new controller state, whether
the arm-refused warning was logged, and whether the kill path
(`sender.update_values`; `sender.close`; `sys.exit`) was taken. -/
structure StepOut where
  state : CtrlState
  warnArm : Bool
  killed : Bool
deriving DecidableEq

/-- Stick-event tail of `_process_event`: store the new raw values, then
re-filter all four axes with `_apply_lpf`. -/
def stepSticks (s : CtrlState) (raw2 : Axes) : CtrlState :=
  { s with
    raw := raw2
    filtered :=
      ⟨applyLpf raw2.roll s.filtered.roll,
       applyLpf raw2.pitch s.filtered.pitch,
       applyLpf raw2.yaw s.filtered.yaw,
       applyLpf raw2.throttle s.filtered.throttle⟩ }

/-- `DroneController._process_event`, restricted to the state fields it
mutates.  BTN_SOUTH arms only when disarmed and `filtered["throttle"] < 0.05`
(else it logs a warning); BTN_NORTH/BTN_EAST disarm and `_reset_inputs()`
when armed; BTN_START clears `armed`, pushes the disarmed values to the
sender and exits without resetting `raw`/`filtered`; stick events update one
raw axis and re-filter all four. -/
def processEvent (s : CtrlState) (e : Ev) : StepOut :=
  match e with
  | .btnSouth =>
      if s.armed = false then
        if s.filtered.throttle < 1 / 20 then
          ⟨{ s with armed := true }, false, false⟩
        else ⟨s, true, false⟩
      else ⟨s, false, false⟩
  | .btnNorth | .btnEast =>
      if s.armed then
        ⟨{ s with armed := false, raw := zeroAxes, filtered := zeroAxes }, false, false⟩
      else ⟨s, false, false⟩
  | .btnStart => ⟨{ s with armed := false }, false, true⟩
  | .absX v => ⟨stepSticks s { s.raw with yaw := controllerNormalize v false }, false, false⟩
  | .absY v =>
      ⟨stepSticks s { s.raw with throttle := (controllerNormalize v true + 1) / 2 }, false, false⟩
  | .absRX v => ⟨stepSticks s { s.raw with roll := controllerNormalize v false }, false, false⟩
  | .absRY v => ⟨stepSticks s { s.raw with pitch := controllerNormalize v true }, false, false⟩

/-- `DroneController._signal_handler`: sets `armed = False` and hands the
unchanged `filtered` values to the sender before closing; it never calls
`_reset_inputs`. -/
def signalHandler (s : CtrlState) : CtrlState := { s with armed := false }

/-- A disarmed state whose filtered throttle is 0.10 (above the arm gate). -/
def armAt10 : CtrlState := ⟨false, zeroAxes, ⟨0, 0, 0, 1 / 10⟩⟩

/-- A disarmed state whose filtered throttle is 0.02 (below the arm gate). -/
def armAt02 : CtrlState := ⟨false, zeroAxes, ⟨0, 0, 0, 1 / 50⟩⟩

/-- An armed state with nonzero raw and filtered throttle, about to be
killed. -/
def preKill : CtrlState := ⟨true, ⟨0, 0, 0, 7 / 10⟩, ⟨1 / 5, 0, 0, 7 / 10⟩⟩

/-! ## controller_handler.py : ControllerHandler._normalize -/

/-- The evdev `AbsInfo` fields used by `ControllerHandler._normalize`. -/
structure AbsRange where
  lo : ℤ
  hi : ℤ
deriving DecidableEq

/-- The axis keys `ControllerHandler` routes through `_normalize`. -/
inductive HKey
  | roll
  | pitch
  | yaw
  | throttle
  | dpad_x
  | dpad_y
deriving DecidableEq

/-- `ControllerHandler._normalize(value, info, key, invert)`.
Throttle (trigger): the unclamped linear map `(value - min) / (max - min)`
(or its `1 - n` inversion).  D-pad: the value itself.  Sticks: integer
center/half-range, a 5% deadzone, then `delta / max_range` clamped to
`[-1, 1]` and optionally negated. -/
def handlerNormalize (value : ℤ) (info : AbsRange) (key : HKey) (invert : Bool) : ℚ :=
  match key with
  | .throttle =>
      let n : ℚ := ((value : ℚ) - (info.lo : ℚ)) / ((info.hi : ℚ) - (info.lo : ℚ))
      if invert then 1 - n else n
  | .dpad_x | .dpad_y => (value : ℚ)
  | _ =>
      let center : ℤ := (info.hi + info.lo).fdiv 2
      let max_range : ℤ := (info.hi - info.lo).fdiv 2
      let delta : ℤ := value - center
      if (|delta| : ℚ) < (max_range : ℚ) * (5 / 100) then 0
      else
        let n : ℚ := max (-1) (min 1 ((delta : ℚ) / (max_range : ℚ)))
        if invert then -n else n

/-! ## msp_sender.py : MSPSender.update_values / close -/

/-- Python's `int()` on a rational: truncation toward zero. -/
def pyInt (q : ℚ) : ℤ := Int.tdiv q.num (q.den : ℤ)

/-- The normalized filtered values handed to `MSPSender.update_values`. -/
structure FilteredVals where
  roll : ℚ
  pitch : ℚ
  yaw : ℚ
  throttle : ℚ
deriving DecidableEq

/-- The `MSPSender` shared state mutated under `data_lock`. -/
structure MSPState where
  rc_channels : List ℤ
  armed : Bool
deriving DecidableEq

/-- The clamp applied to every channel at the end of `update_values`:
`max(1000, min(2000, c))`. -/
def clampMsp (c : ℤ) : ℤ := max 1000 (min 2000 c)

/-- `MSPSender.__init__`'s initial `rc_channels`. -/
def initChannels : List ℤ := [1500, 1500, 1000, 1500, 1000, 1000, 1000, 1000]

/-- `MSPSender.update_values(filtered_vals, armed)`: when disarmed the whole
channel list is replaced by the fixed safe list; when armed channels 0-4 are
recomputed from the filtered values (AUX1 = 2000) and channels 5-7 keep
their previous values.  Every channel is then clamped to `[1000, 2000]`. -/
def updateValues (s : MSPState) (v : FilteredVals) (armed : Bool) : MSPState :=
  let pre : List ℤ :=
    if armed = false then
      [1500, 1500, 1500, 1000, 1000, 1000, 1000, 1000]
    else
      [pyInt (1500 + v.roll * 500), pyInt (1500 + v.pitch * 500),
       pyInt (1500 + v.yaw * 500), pyInt (1000 + v.throttle * 1000), 2000,
       s.rc_channels.getD 5 0, s.rc_channels.getD 6 0, s.rc_channels.getD 7 0]
  ⟨pre.map clampMsp, armed⟩

/-- The disarm step of `MSPSender.close()`: `armed = False` and
`rc_channels = [1500, 1500, 1000, 1500, 1000, 1000, 1000, 1000]`. -/
def closeState (_s : MSPState) : MSPState :=
  ⟨[1500, 1500, 1000, 1500, 1000, 1000, 1000, 1000], false⟩

/-! ## msp_sender.py / verify_msp.py : MSP v1 packet -/

/-- `struct.pack('<NH', ...)`: each channel as two little-endian bytes
(low byte first).  Faithful for values below 65536. -/
def packLE : List ℕ → List ℕ
  | [] => []
  | c :: cs => c % 256 :: c / 256 :: packLE cs

/-- XOR of a list of bytes, starting from 0. -/
def xorAll (l : List ℕ) : ℕ := l.foldl Nat.xor 0

/-- `create_packet(data_id, payload)` (same code in `MSPSender._create_packet`
and `verify_msp.py`): header `$M<` (bytes 36, 77, 60), length byte, id byte,
payload, then the checksum `length ^ id ^ byte0 ^ byte1 ^ ...` accumulated
left to right. -/
def createPacket (dataId : ℕ) (payload : List ℕ) : List ℕ :=
  let length := payload.length
  let checksum := payload.foldl Nat.xor (Nat.xor length dataId)
  [36, 77, 60] ++ [length, dataId] ++ payload ++ [checksum]

/-! ## verify_crsf.py : CRC8 and CRSF frame -/

/-- One input byte of `crc8_crsf`: XOR the byte in, then 8 rounds of
shift-left, conditional XOR with 0xD5 when the pre-shift high bit was set,
and masking to 8 bits. -/
def crc8Byte (crc byte : ℕ) : ℕ :=
  (List.range 8).foldl
    (fun c _ =>
      if c &&& 128 != 0 then ((c <<< 1) ^^^ 0xD5) &&& 255 else (c <<< 1) &&& 255)
    (Nat.xor crc byte)

/-- `crc8_crsf(data)`: seed 0, fold `crc8Byte` over the data. -/
def crc8_crsf (data : List ℕ) : ℕ := data.foldl crc8Byte 0

/-- The mutable state of `create_crsf_frame`'s bit-packing loop:
the 22-byte payload, the bit cursor within the current byte, and the index
of the current byte. -/
structure PackSt where
  payload : List ℕ
  bits : ℕ
  current_byte : ℕ
deriving DecidableEq

/-- One iteration of the inner loop of `create_crsf_frame`: when the
channel bit is set, OR `1 << bits` into the current payload byte; then
advance the bit cursor, rolling into the next byte after 8 bits. -/
def packBit (st : PackSt) (b : Bool) : PackSt :=
  let payload :=
    if b then
      st.payload.set st.current_byte ((st.payload.getD st.current_byte 0) ||| (1 <<< st.bits))
    else st.payload
  if st.bits + 1 = 8 then ⟨payload, 0, st.current_byte + 1⟩
  else ⟨payload, st.bits + 1, st.current_byte⟩

/-- The inner 11-bit loop of `create_crsf_frame` for one channel value. -/
def packChannel (st : PackSt) (ch : ℕ) : PackSt :=
  (List.range 11).foldl (fun t i => packBit t (ch &&& (1 <<< i) != 0)) st

/-- The bit-packing of `create_crsf_frame`: channels folded LSB-first into a
payload initialized to 22 zero bytes. -/
def packChannels (chs : List ℕ) : List ℕ :=
  (chs.foldl packChannel ⟨List.replicate 22 0, 0, 0⟩).payload

/-- `create_crsf_frame(rc_channels)`: sync 0xC8, length `len(payload) + 2`,
type 0x16, payload, then `crc8_crsf(frame[2:])` (type and payload only). -/
def createCrsfFrame (chs : List ℕ) : List ℕ :=
  let payload := packChannels chs
  let frame := [0xC8, payload.length + 2, 0x16] ++ payload
  frame ++ [crc8_crsf (frame.drop 2)]

/-- Modelled from the spec: the inverse bit layout of the CRSF payload —
channel `ch` occupies payload bits `ch*11 .. ch*11+10`, LSB first. -/
def unpackChannel (payload : List ℕ) (ch : ℕ) : ℕ :=
  (List.range 11).foldl
    (fun acc i =>
      if (payload.getD ((ch * 11 + i) / 8) 0) &&& (1 <<< ((ch * 11 + i) % 8)) != 0 then
        acc ||| (1 <<< i)
      else acc)
    0

/-- 16 CRSF channels, all neutral (992) except channel 3 at 2000
(inside 11 bits but above the CRSF legal maximum 1792). -/
def chs2000 : List ℕ := [992, 992, 992, 2000] ++ List.replicate 12 992

/-- 16 CRSF channels, all neutral (992) except channel 3 at 5000
(outside 11 bits: its low 11 bits encode 904). -/
def chs5000 : List ℕ := [992, 992, 992, 5000] ++ List.replicate 12 992

/-! ## msp_sender.py : _start_serial and the sender loop's reconnect -/

/-- The fixed fallback device paths in `_start_serial`. -/
def fallbackPorts : List String := ["/dev/ttyACM1", "/dev/ttyUSB0", "/dev/ttyUSB1"]

/-- `ports_to_try`: the primary port first, then each fallback not already
present. -/
def portsToTry (primary : String) : List String :=
  fallbackPorts.foldl (fun acc p => if p ∈ acc then acc else acc ++ [p]) [primary]

/-- The `for p in ports_to_try: try ... except: continue` loop: the first
port the environment lets open, if any. -/
def tryPorts (env : String → Bool) : List String → Option String
  | [] => none
  | p :: rest => if env p then some p else tryPorts env rest

/-- The `MSPSender` connection state: the current primary port and the open
handle (`some p` means a connection open on `p`, `none` means `self.ser is
None`). -/
structure SerialSt where
  port : String
  ser : Option String
deriving DecidableEq

/-- `MSPSender._start_serial()` over an environment `env` telling which
device paths open successfully: return immediately when already open;
otherwise keep the first candidate that opens (also updating the primary
port), or clear the handle and report failure. -/
def startSerial (env : String → Bool) (s : SerialSt) : Bool × SerialSt :=
  match s.ser with
  | some _ => (true, s)
  | none =>
      match tryPorts env (portsToTry s.port) with
      | some p => (true, ⟨p, some p⟩)
      | none => (false, ⟨s.port, none⟩)

/-- One `_sender_loop` tick's connection handling: `_start_serial`, then a
write whose failure (`writeOk` false) closes and clears the handle. -/
def senderTick (env writeOk : String → Bool) (s : SerialSt) : SerialSt :=
  let r := startSerial env s
  if r.1 then
    match r.2.ser with
    | some p => if writeOk p then r.2 else ⟨r.2.port, none⟩
    | none => r.2
  else r.2

/-- An environment in which no serial device ever opens and no write
succeeds. -/
def envNone : String → Bool := fun _ => false

/-! ## Helper lemmas -/

/-- The candidate loop of `_start_serial` returns the first port the
environment lets open. -/
theorem tryPorts_eq_find (env : String → Bool) (l : List String) :
    tryPorts env l = l.find? env := by
  induction l with
  | nil => rfl
  | cons p r ih =>
      by_cases h : env p <;>
        simp [tryPorts, h, ih, List.find?_cons_of_pos, List.find?_cons_of_neg]

/-- Folding XOR from an arbitrary accumulator splits off the accumulator. -/
theorem foldl_xor_shift (l : List ℕ) (a : ℕ) :
    l.foldl Nat.xor a = Nat.xor a (l.foldl Nat.xor 0) := by
  induction l generalizing a with
  | nil => exact (Nat.xor_zero a).symm
  | cons x xs ih =>
      simp only [List.foldl_cons]
      rw [ih (Nat.xor a x), ih (Nat.xor 0 x)]
      show a ^^^ x ^^^ _ = a ^^^ ((0 ^^^ x) ^^^ _)
      rw [Nat.zero_xor, Nat.xor_assoc]

/-- The little-endian uint16 payload has two bytes per channel. -/
theorem packLE_length (chs : List ℕ) : (packLE chs).length = 2 * chs.length := by
  induction chs with
  | nil => simp [packLE]
  | cons c cs ih => simp [packLE, ih]; ring

/-- `packBit` never changes the payload length (`List.set` is length
preserving). -/
theorem packBit_payload_length (st : PackSt) (b : Bool) :
    (packBit st b).payload.length = st.payload.length := by
  unfold packBit
  cases b <;> dsimp <;> split <;> simp [List.length_set]

/-- Folding `packBit` over any bit source preserves the payload length. -/
theorem foldl_packBit_payload_length (g : ℕ → Bool) (l : List ℕ) (st : PackSt) :
    (l.foldl (fun t i => packBit t (g i)) st).payload.length = st.payload.length := by
  induction l generalizing st with
  | nil => rfl
  | cons x xs ih => rw [List.foldl_cons, ih, packBit_payload_length]

/-- `packChannel` preserves the payload length. -/
theorem packChannel_payload_length (st : PackSt) (ch : ℕ) :
    (packChannel st ch).payload.length = st.payload.length :=
  foldl_packBit_payload_length _ _ st

/-- Folding `packChannel` over the channel list preserves the payload
length. -/
theorem foldl_packChannel_payload_length (chs : List ℕ) (st : PackSt) :
    (chs.foldl packChannel st).payload.length = st.payload.length := by
  induction chs generalizing st with
  | nil => rfl
  | cons c cs ih => rw [List.foldl_cons, ih, packChannel_payload_length]

/-- The CRSF payload always has 22 bytes. -/
theorem packChannels_length (chs : List ℕ) : (packChannels chs).length = 22 := by
  simp [packChannels, foldl_packChannel_payload_length]

/-- `controllerNormalize` always lands in `[-1, 1]`. -/
theorem controllerNormalize_mem (v : ℚ) (invert : Bool) :
    -1 ≤ controllerNormalize v invert ∧ controllerNormalize v invert ≤ 1 := by
  unfold controllerNormalize
  by_cases hdz : |v - CENTER| < DEADZONE
  · rw [if_pos hdz]; norm_num
  · rw [if_neg hdz]
    have h1 : -1 ≤ max (-1) (min 1 ((v - CENTER) / MAX_RANGE)) := le_max_left _ _
    have h2 : max (-1) (min 1 ((v - CENTER) / MAX_RANGE)) ≤ 1 :=
      max_le (by norm_num) (min_le_left _ _)
    cases invert
    · exact ⟨h1, h2⟩
    · exact ⟨neg_le_neg h2, by simpa using neg_le_neg h1⟩

/-- The deadzone-or-clamped-and-possibly-negated shape shared by both
stick normalizers always lands in `[-1, 1]`. -/
theorem ite_clamp_mem (A : Prop) [Decidable A] (x : ℚ) (invert : Bool) :
    -1 ≤ (if A then (0 : ℚ)
        else if invert then -(max (-1) (min 1 x)) else max (-1) (min 1 x)) ∧
    (if A then (0 : ℚ)
        else if invert then -(max (-1) (min 1 x)) else max (-1) (min 1 x)) ≤ 1 := by
  by_cases hA : A
  · rw [if_pos hA]; norm_num
  · rw [if_neg hA]
    have h1 : -1 ≤ max (-1) (min 1 x) := le_max_left _ _
    have h2 : max (-1) (min 1 x) ≤ 1 := max_le (by norm_num) (min_le_left _ _)
    cases invert
    · exact ⟨h1, h2⟩
    · exact ⟨neg_le_neg h2, by simpa using neg_le_neg h1⟩

/-- `ControllerHandler._normalize` on a stick axis always lands in
`[-1, 1]`. -/
theorem handlerNormalize_stick_mem (v : ℤ) (info : AbsRange) (k : HKey) (invert : Bool)
    (hk : k = HKey.roll ∨ k = HKey.pitch ∨ k = HKey.yaw) :
    -1 ≤ handlerNormalize v info k invert ∧ handlerNormalize v info k invert ≤ 1 := by
  rcases hk with rfl | rfl | rfl <;> exact ite_clamp_mem _ _ _

/-! ## Claims -/

/-- C1 (counterexample): a disarm that reaches the sender through
`update_values(..., armed=False)` — the button-disarm and kill paths — makes
the next frame carry `[1500, 1500, 1500, 1000, 1000, 1000, 1000, 1000]`,
which is not the documented safe-default list
`[1500, 1500, 1000, 1500, 1000, 1000, 1000, 1000]` (the list written by
`__init__` and `close()`). -/
theorem c1_counterexample :
    (updateValues ⟨initChannels, true⟩ ⟨3 / 5, -2 / 5, 1 / 4, 9 / 10⟩ false).rc_channels =
        [1500, 1500, 1500, 1000, 1000, 1000, 1000, 1000] ∧
    (updateValues ⟨initChannels, true⟩ ⟨3 / 5, -2 / 5, 1 / 4, 9 / 10⟩ false).rc_channels ≠
        [1500, 1500, 1000, 1500, 1000, 1000, 1000, 1000] := by
  constructor <;> decide

/-- C1 (amended): after a disarm, the channels handed to the encoder are a
fixed list independent of the pre-disarm axis values — but the two disarm
paths disagree on the list: `update_values(..., armed=False)` produces
`[1500, 1500, 1500, 1000, 1000, 1000, 1000, 1000]` (throttle slot 3 at
floor), while `close()` (kill/shutdown) writes
`[1500, 1500, 1000, 1500, 1000, 1000, 1000, 1000]` (slot 2 at floor), and
both clear `armed`. -/
theorem c1_amended_disarm_defaults :
    (∀ s v, (updateValues s v false).rc_channels =
        [1500, 1500, 1500, 1000, 1000, 1000, 1000, 1000] ∧
      (updateValues s v false).armed = false) ∧
    (∀ s, (closeState s).rc_channels = [1500, 1500, 1000, 1500, 1000, 1000, 1000, 1000] ∧
      (closeState s).armed = false) :=
  ⟨fun _ _ => ⟨rfl, rfl⟩, fun _ => ⟨rfl, rfl⟩⟩

/-- C2: the Disarmed-to-Armed transition happens only on the arm button and
only with filtered throttle at or below 0.05 (the code requires strictly
below); arming at filtered throttle 0.10 is refused with a warning and the
state is unchanged, and arming at 0.02 succeeds. -/
theorem c2_arm_gate (s : CtrlState) (e : Ev)
    (hd : s.armed = false) (ha : (processEvent s e).state.armed = true) :
    (e = Ev.btnSouth ∧ s.filtered.throttle ≤ 1 / 20) ∧
    (processEvent armAt10 Ev.btnSouth).state = armAt10 ∧
    (processEvent armAt10 Ev.btnSouth).warnArm = true ∧
    (processEvent armAt02 Ev.btnSouth).state.armed = true := by
  refine ⟨?_, by norm_num [processEvent, armAt10], by norm_num [processEvent, armAt10],
    by norm_num [processEvent, armAt02]⟩
  cases e with
  | btnSouth =>
      refine ⟨rfl, ?_⟩
      by_cases h : s.filtered.throttle < 1 / 20
      · exact le_of_lt h
      · exfalso
        simp only [processEvent] at ha
        rw [if_pos hd, if_neg h] at ha
        simp [hd] at ha
  | btnNorth => simp [processEvent, hd] at ha
  | btnEast => simp [processEvent, hd] at ha
  | btnStart => simp [processEvent] at ha
  | absX v => simp [processEvent, stepSticks, hd] at ha
  | absY v => simp [processEvent, stepSticks, hd] at ha
  | absRX v => simp [processEvent, stepSticks, hd] at ha
  | absRY v => simp [processEvent, stepSticks, hd] at ha

/-- C2 witness at the concrete 0.02 arm attempt. -/
theorem c2_arm_gate_witness :
    ((Ev.btnSouth : Ev) = Ev.btnSouth ∧ armAt02.filtered.throttle ≤ 1 / 20) ∧
    (processEvent armAt10 Ev.btnSouth).state = armAt10 ∧
    (processEvent armAt10 Ev.btnSouth).warnArm = true ∧
    (processEvent armAt02 Ev.btnSouth).state.armed = true :=
  c2_arm_gate armAt02 Ev.btnSouth rfl (by norm_num [processEvent, armAt02])

/-- C3 (counterexample): the kill path is an Armed-to-Disarmed transition
that does not reset the axis values — from `preKill` (filtered throttle
0.7), BTN_START clears `armed` but leaves `filtered` untouched. -/
theorem c3_counterexample :
    preKill.armed = true ∧
    (processEvent preKill Ev.btnStart).state.armed = false ∧
    (processEvent preKill Ev.btnStart).state.filtered ≠ zeroAxes ∧
    (processEvent preKill Ev.btnStart).state.filtered.throttle = 7 / 10 := by
  refine ⟨rfl, rfl, by norm_num [processEvent, preKill, zeroAxes], rfl⟩

/-- C3 (amended): only the button disarm (Triangle/Circle) resets raw and
filtered axis values to zero immediately; the kill and signal/shutdown
paths clear `armed` (and push frames to the sender) but leave raw and
filtered values unchanged in the handler itself. -/
theorem c3_amended_disarm_reset (s : CtrlState) (h : s.armed = true) :
    (processEvent s Ev.btnNorth).state =
      { armed := false, raw := zeroAxes, filtered := zeroAxes } ∧
    (processEvent s Ev.btnEast).state =
      { armed := false, raw := zeroAxes, filtered := zeroAxes } ∧
    (processEvent s Ev.btnStart).state.armed = false ∧
    (processEvent s Ev.btnStart).state.raw = s.raw ∧
    (processEvent s Ev.btnStart).state.filtered = s.filtered ∧
    (processEvent s Ev.btnStart).killed = true ∧
    (signalHandler s).armed = false ∧
    (signalHandler s).raw = s.raw ∧
    (signalHandler s).filtered = s.filtered := by
  refine ⟨?_, ?_, rfl, rfl, rfl, rfl, rfl, rfl, rfl⟩ <;> simp [processEvent, h]

/-- C3 amended witness at the concrete armed state `preKill`. -/
theorem c3_amended_witness :
    (processEvent preKill Ev.btnNorth).state =
      { armed := false, raw := zeroAxes, filtered := zeroAxes } ∧
    (processEvent preKill Ev.btnEast).state =
      { armed := false, raw := zeroAxes, filtered := zeroAxes } ∧
    (processEvent preKill Ev.btnStart).state.armed = false ∧
    (processEvent preKill Ev.btnStart).state.raw = preKill.raw ∧
    (processEvent preKill Ev.btnStart).state.filtered = preKill.filtered ∧
    (processEvent preKill Ev.btnStart).killed = true ∧
    (signalHandler preKill).armed = false ∧
    (signalHandler preKill).raw = preKill.raw ∧
    (signalHandler preKill).filtered = preKill.filtered :=
  c3_amended_disarm_reset preKill rfl

/-- C4: an MSP v1 packet is the header `$M<` (36, 77, 60), the length byte
`2*N`, id byte, the little-endian payload, and a checksum equal to
`length XOR id XOR (XOR of every payload byte)`; for the eight-channel
payload `[1500, 1500, 1500, 1000, 1000, 1000, 1000, 1000]` the length byte
is 16, the id byte is 200 and the checksum is 0xEA. -/
theorem c4_msp_packet_layout (chs : List ℕ)
    (_hlen : 2 * chs.length ≤ 255) (_hval : ∀ c ∈ chs, c < 65536) :
    createPacket 200 (packLE chs) =
      [36, 77, 60] ++ [2 * chs.length, 200] ++ packLE chs ++
        [Nat.xor (Nat.xor (2 * chs.length) 200) (xorAll (packLE chs))] ∧
    (createPacket 200 (packLE [1500, 1500, 1500, 1000, 1000, 1000, 1000, 1000])).getD 3 0
        = 16 ∧
    (createPacket 200 (packLE [1500, 1500, 1500, 1000, 1000, 1000, 1000, 1000])).getD 4 0
        = 200 ∧
    (createPacket 200 (packLE [1500, 1500, 1500, 1000, 1000, 1000, 1000, 1000])).getLast?
        = some 0xEA := by
  refine ⟨?_, by decide, by decide, by decide⟩
  simp only [createPacket, xorAll]
  rw [foldl_xor_shift, packLE_length]

/-- C4 witness at the concrete eight-channel payload. -/
theorem c4_msp_packet_witness :
    createPacket 200 (packLE [1500, 1500, 1500, 1000, 1000, 1000, 1000, 1000]) =
      [36, 77, 60] ++
        [2 * ([1500, 1500, 1500, 1000, 1000, 1000, 1000, 1000] : List ℕ).length, 200] ++
        packLE [1500, 1500, 1500, 1000, 1000, 1000, 1000, 1000] ++
        [Nat.xor
          (Nat.xor (2 * ([1500, 1500, 1500, 1000, 1000, 1000, 1000, 1000] : List ℕ).length)
            200)
          (xorAll (packLE [1500, 1500, 1500, 1000, 1000, 1000, 1000, 1000]))] ∧
    (createPacket 200 (packLE [1500, 1500, 1500, 1000, 1000, 1000, 1000, 1000])).getD 3 0
        = 16 ∧
    (createPacket 200 (packLE [1500, 1500, 1500, 1000, 1000, 1000, 1000, 1000])).getD 4 0
        = 200 ∧
    (createPacket 200 (packLE [1500, 1500, 1500, 1000, 1000, 1000, 1000, 1000])).getLast?
        = some 0xEA :=
  c4_msp_packet_layout [1500, 1500, 1500, 1000, 1000, 1000, 1000, 1000] (by decide)
    (by decide)

/-- C5: a CRSF RC frame built from 16 channel values is the sync byte 0xC8,
the length byte 24 (payload length 22 plus 2), the frame type 0x16, the
22-byte bit-packed payload, and a trailing CRC8 (polynomial 0xD5, seed 0)
computed over the type byte and the payload only. -/
theorem c5_crsf_frame_layout (chs : List ℕ) (_h : chs.length = 16) :
    createCrsfFrame chs =
      [0xC8, 24, 0x16] ++ packChannels chs ++
        [crc8_crsf (0x16 :: packChannels chs)] ∧
    (packChannels chs).length = 22 := by
  have hl := packChannels_length chs
  refine ⟨?_, hl⟩
  simp only [createCrsfFrame, hl]
  simp [List.append_assoc]

/-- C5 witness at the all-neutral 16-channel frame. -/
theorem c5_crsf_frame_witness :
    createCrsfFrame (List.replicate 16 992) =
      [0xC8, 24, 0x16] ++ packChannels (List.replicate 16 992) ++
        [crc8_crsf (0x16 :: packChannels (List.replicate 16 992))] ∧
    (packChannels (List.replicate 16 992)).length = 22 :=
  c5_crsf_frame_layout (List.replicate 16 992) (by decide)

/-- C6: packing 16 channels of 992 and unpacking with the inverse bit
layout reproduces 992 on every channel; the frame's length byte is 24 and
its CRC byte matches an independent CRC8 recomputation over type and
payload (`frame[2:-1]`). -/
theorem c6_crsf_roundtrip :
    (List.range 16).map (unpackChannel (packChannels (List.replicate 16 992))) =
        List.replicate 16 992 ∧
    (createCrsfFrame (List.replicate 16 992)).getD 1 0 = 24 ∧
    (createCrsfFrame (List.replicate 16 992)).getLast? =
      some (crc8_crsf (((createCrsfFrame (List.replicate 16 992)).drop 2).dropLast)) :=
  ⟨by decide, by decide, by decide⟩

/-- C7 (counterexample): `ControllerHandler._normalize` on the throttle
trigger is an unclamped linear map — the out-of-range raw value 300 on a
0..255 trigger normalizes to 20/17, which exceeds 1. -/
theorem c7_counterexample :
    handlerNormalize 300 ⟨0, 255⟩ HKey.throttle false = 20 / 17 ∧
    ¬ handlerNormalize 300 ⟨0, 255⟩ HKey.throttle false ≤ 1 := by
  have h : handlerNormalize 300 ⟨0, 255⟩ HKey.throttle false
      = (((300 : ℤ) : ℚ) - ((0 : ℤ) : ℚ)) / (((255 : ℤ) : ℚ) - ((0 : ℤ) : ℚ)) := rfl
  constructor <;> rw [h] <;> norm_num

/-- C7 (amended): `DroneController._normalize` is always in `[-1, 1]` and
its throttle remap `(n+1)/2` is always in `[0, 1]`, for any raw input;
`ControllerHandler._normalize` on stick axes is always in `[-1, 1]`; but
its trigger-throttle map is in `[0, 1]` only when the raw value lies inside
the device-reported `[min, max]` range. -/
theorem c7_amended_normalize_range :
    (∀ (v : ℚ) (invert : Bool),
        -1 ≤ controllerNormalize v invert ∧ controllerNormalize v invert ≤ 1) ∧
    (∀ v : ℚ, 0 ≤ (controllerNormalize v true + 1) / 2 ∧
        (controllerNormalize v true + 1) / 2 ≤ 1) ∧
    (∀ (v : ℤ) (info : AbsRange) (k : HKey) (invert : Bool),
        k = HKey.roll ∨ k = HKey.pitch ∨ k = HKey.yaw →
        -1 ≤ handlerNormalize v info k invert ∧ handlerNormalize v info k invert ≤ 1) ∧
    (∀ (v : ℤ) (info : AbsRange), info.lo ≤ v → v ≤ info.hi → info.lo < info.hi →
        0 ≤ handlerNormalize v info HKey.throttle false ∧
        handlerNormalize v info HKey.throttle false ≤ 1) := by
  refine ⟨controllerNormalize_mem, ?_, handlerNormalize_stick_mem, ?_⟩
  · intro v
    obtain ⟨h1, h2⟩ := controllerNormalize_mem v true
    constructor
    · exact div_nonneg (by linarith) (by norm_num)
    · rw [div_le_one (by norm_num : (0 : ℚ) < 2)]
      linarith
  · intro v info hlo hhi hlt
    have hden : (0 : ℚ) < (info.hi : ℚ) - (info.lo : ℚ) := by
      rw [sub_pos]
      exact_mod_cast hlt
    have hnum : (0 : ℚ) ≤ (v : ℚ) - (info.lo : ℚ) := by
      rw [sub_nonneg]
      exact_mod_cast hlo
    have hle : (v : ℚ) - (info.lo : ℚ) ≤ (info.hi : ℚ) - (info.lo : ℚ) := by
      have : (v : ℚ) ≤ (info.hi : ℚ) := by exact_mod_cast hhi
      linarith
    exact ⟨div_nonneg hnum (le_of_lt hden), (div_le_one hden).mpr hle⟩

/-- C7 amended witness at an in-range trigger value. -/
theorem c7_amended_witness :
    0 ≤ handlerNormalize 100 ⟨0, 255⟩ HKey.throttle false ∧
    handlerNormalize 100 ⟨0, 255⟩ HKey.throttle false ≤ 1 :=
  c7_amended_normalize_range.2.2.2 100 ⟨0, 255⟩ (by decide) (by decide) (by decide)

/-- C8 (counterexample): the CRSF frame builder does not clamp — fed the
out-of-range channel value 2000 (legal CRSF maximum is 1792), it packs 2000
unchanged into the payload. -/
theorem c8_counterexample :
    unpackChannel (packChannels chs2000) 3 = 2000 ∧ ¬ (2000 : ℕ) ≤ 1792 :=
  ⟨by decide, by decide⟩

/-- C8 (amended): the MSP encoder clamps every output channel to
`[1000, 2000]` whatever the inputs; the CRSF frame builder performs no
clamping at all — each channel is truncated to its low 11 bits, so 5000
goes onto the wire as 904 and 2000 (above the 1792 legal maximum) is
transmitted unchanged. -/
theorem c8_amended_clamping :
    (∀ (s : MSPState) (v : FilteredVals) (a : Bool) (c : ℤ),
        c ∈ (updateValues s v a).rc_channels → 1000 ≤ c ∧ c ≤ 2000) ∧
    unpackChannel (packChannels chs5000) 3 = 904 ∧
    unpackChannel (packChannels chs2000) 3 = 2000 := by
  refine ⟨?_, by decide, by decide⟩
  intro s v a c hc
  simp only [updateValues, List.mem_map] at hc
  obtain ⟨x, -, rfl⟩ := hc
  exact ⟨le_max_left _ _, max_le (by norm_num) (min_le_left _ _)⟩

/-- C8 amended witness: a concrete clamped channel. -/
theorem c8_amended_witness : (1000 : ℤ) ≤ 1500 ∧ (1500 : ℤ) ≤ 2000 :=
  c8_amended_clamping.1 ⟨initChannels, false⟩ ⟨0, 0, 0, 0⟩ false 1500 (by decide)

/-- C9: `_start_serial` is idempotent when a connection is open; otherwise
it keeps the first candidate (primary, then fixed fallbacks) that opens and
fails exactly when none opens; a write failure clears the handle so the
next tick retries the full candidate scan; and with every open failing, any
number of ticks still leaves the handle cleared — the retry never stops. -/
theorem c9_ensure_open (env writeOk : String → Bool) (s : SerialSt) :
    (∀ h, s.ser = some h → startSerial env s = (true, s)) ∧
    (s.ser = none → ∀ p, (portsToTry s.port).find? env = some p →
        startSerial env s = (true, ⟨p, some p⟩)) ∧
    (s.ser = none →
        ((startSerial env s).1 = false ↔ ∀ p ∈ portsToTry s.port, env p = false)) ∧
    (∀ p, s.ser = some p → writeOk p = false →
        senderTick env writeOk s = ⟨s.port, none⟩ ∧
        startSerial env (senderTick env writeOk s) = startSerial env ⟨s.port, none⟩) ∧
    ((∀ q, env q = false) →
        ∀ n, ((senderTick env writeOk)^[n] ⟨s.port, none⟩).ser = none) := by
  refine ⟨?_, ?_, ?_, ?_, ?_⟩
  · intro h hs
    simp [startSerial, hs]
  · intro hn p hp
    simp [startSerial, hn, tryPorts_eq_find, hp]
  · intro hn
    have hiff : (startSerial env s).1 = false ↔ (portsToTry s.port).find? env = none := by
      rcases hq : (portsToTry s.port).find? env with _ | q <;>
        simp [startSerial, hn, tryPorts_eq_find, hq]
    rw [hiff, List.find?_eq_none]
    simp
  · intro p hs hw
    have ht : senderTick env writeOk s = ⟨s.port, none⟩ := by
      simp [senderTick, startSerial, hs, hw]
    exact ⟨ht, by rw [ht]⟩
  · intro henv n
    have key : ∀ t : SerialSt, t.ser = none → (senderTick env writeOk t).ser = none := by
      intro t ht
      have hfind : tryPorts env (portsToTry t.port) = none := by
        rw [tryPorts_eq_find, List.find?_eq_none]
        intro x _
        simp [henv]
      simp [senderTick, startSerial, ht, hfind]
    induction n with
    | zero => rfl
    | succ n ih =>
        rw [Function.iterate_succ_apply']
        exact key _ ih

/-- C9 witness: three failing ticks from a closed handle still leave the
handle cleared. -/
theorem c9_ensure_open_witness :
    ((senderTick envNone envNone)^[3] (⟨"/dev/ttyACM0", none⟩ : SerialSt)).ser = none :=
  (c9_ensure_open envNone envNone ⟨"/dev/ttyACM0", none⟩).2.2.2.2 (fun _ => rfl) 3

/-- C10: while disarmed, the channels produced by `update_values` do not
depend on the filtered axis values or on the previous sender state — any
two disarmed calls yield equal `rc_channels`. -/
theorem c10_disarmed_noninterference (s1 s2 : MSPState) (v1 v2 : FilteredVals) :
    (updateValues s1 v1 false).rc_channels = (updateValues s2 v2 false).rc_channels := rfl

end DronePi
